import Mathlib

/-!
Verification of the HealthPay settlement and payout engine.

Shallow embedding of the settlement calculation engine
(`SettlementEngineService`, src/unnamed/part_006) and the payout services
(`src/payfac/payout/payout.service.ts` and the payout service in
src/unnamed/part_003) over exact rational arithmetic.

Modelling conventions:
- Monetary amounts are `ℚ` (the source uses the arbitrary-precision
  decimal.js `Decimal` type; its `plus`/`minus`/`times` are exact).
- `Decimal.toDecimalPlaces(2)` with decimal.js's default rounding mode
  `ROUND_HALF_UP` (ties round away from zero) is `toDecimalPlaces2`.
- Timestamps and dates are day indices (`Nat`); `Between(start, end)`
  becomes `start ≤ t ∧ t ≤ end`, and end-of-day granularity is absorbed
  into the day index.
- Nullable / optional TypeScript fields are `Option`; the JS `x || d`
  default idiom is modelled field-by-field, respecting JS falsiness of 0.
- Repository tables are lists in a `Store`; `repo.find` is `List.filter`,
  `repo.findOne` is `List.find?`, `repo.update`/`save` map over the list.
- Fire-and-forget notifications are collected in a returned list.
-/

namespace HealthPay

/-- decimal.js `toDecimalPlaces(2)` under the library's default rounding
mode `ROUND_HALF_UP`: round to the nearest multiple of 0.01, ties away
from zero (negative inputs are rounded on their absolute value). -/
def toDecimalPlaces2 (x : ℚ) : ℚ :=
  if x < 0 then -((⌊(-x) * 100 + 1/2⌋ : ℚ) / 100)
  else (⌊x * 100 + 1/2⌋ : ℚ) / 100

/-- Modelled from the spec: "rounded to 2 decimal places using
round-half-away-from-zero": scale by 100, round to the nearest integer
with ties going away from zero, and scale back. -/
def roundHalfAwayFromZero2 (x : ℚ) : ℚ :=
  (if x < 0 then -1 else 1) * ((⌊|x| * 100 + 1/2⌋ : ℚ) / 100)

/-- A rational is representable with at most 2 decimal places
(a whole number of cents). -/
def isCents (x : ℚ) : Prop := (x * 100).den = 1

instance (x : ℚ) : Decidable (isCents x) := by
  unfold isCents; infer_instance

/-- Accumulating sum over a list, matching the source's `for` loops that
start from `new Decimal(0)` and `plus` one field per row. -/
def sumBy {α : Type} (l : List α) (f : α → ℚ) : ℚ :=
  l.foldl (fun s a => s + f a) 0

/-! ## Data model (entities referenced by the services) -/

/-- `SubMerchant.settlementCycle`, a string in the source; `other` stands
for any string outside the recognised values (the source's `default`
switch branches). -/
inductive SettlementCycle
  | d0 | d1 | d2 | d3 | weekly | biweekly | monthly | other
  deriving DecidableEq, Repr

/-- `PayoutMethod` enum (`bank_transfer` / `instapay` / `wallet`). -/
inductive PayoutMethod
  | bankTransfer | instapay | wallet
  deriving DecidableEq, Repr

/-- `SettlementStatus` values used by the settlement engine. -/
inductive SettlementStatus
  | calculated | approved | onHold
  deriving DecidableEq, Repr

/-- `PayoutStatus` values used by the payout services. -/
inductive PayoutStatus
  | pending | approved | processing | sent | completed | failed
  | cancelled | returned
  deriving DecidableEq, Repr

structure SubMerchant where
  id : Nat
  merchantCode : String
  smStatus : String
  settlementCycle : SettlementCycle
  settlementDayOfWeek : Option Nat
  settlementDayOfMonth : Option Nat
  reservePercentage : Option ℚ
  reserveDays : Option Nat
  minimumPayoutAmount : Option ℚ
  riskScore : Option Nat
  payoutMethod : PayoutMethod
  deriving DecidableEq, Repr

structure Transaction where
  id : Nat
  subMerchantId : Nat
  txStatus : String
  amount : ℚ
  processorFee : Option ℚ
  platformFee : Option ℚ
  netAmount : ℚ
  capturedAt : Nat
  settlementId : Option Nat
  settledAt : Option Nat
  transactionReference : String
  paymentMethod : String
  deriving DecidableEq, Repr

structure Refund where
  id : Nat
  subMerchantId : Nat
  rfStatus : String
  amount : ℚ
  refundFee : Option ℚ
  netAmount : ℚ
  completedAt : Nat
  settlementId : Option Nat
  refundReference : String
  deriving DecidableEq, Repr

structure Dispute where
  id : Nat
  subMerchantId : Nat
  dpStatus : String
  amount : ℚ
  disputeFee : Option ℚ
  resolvedAt : Nat
  settlementId : Option Nat
  disputeReference : String
  reasonCode : String
  deriving DecidableEq, Repr

structure Reserve where
  id : Nat
  subMerchantId : Nat
  settlementId : Option Nat
  reserveType : String
  amount : ℚ
  releaseDate : Nat
  rsStatus : String
  releasedAt : Option Nat
  deriving DecidableEq, Repr

structure Settlement where
  id : Nat
  settlementReference : String
  subMerchantId : Nat
  settlementDate : Nat
  periodStart : Nat
  periodEnd : Nat
  grossSales : ℚ
  grossRefunds : ℚ
  grossDisputes : ℚ
  grossAmount : ℚ
  processorFees : ℚ
  platformFees : ℚ
  refundFees : ℚ
  disputeFees : ℚ
  totalFees : ℚ
  reserveHeld : ℚ
  reserveReleased : ℚ
  netAmount : ℚ
  transactionCount : Nat
  refundCount : Nat
  disputeCount : Nat
  status : SettlementStatus
  adjustmentNotes : Option String
  payoutId : Option Nat
  approvedBy : Option String
  approvedAt : Option Nat
  calculatedAt : Nat
  deriving DecidableEq, Repr

structure SettlementItem where
  settlementId : Nat
  itemType : String
  referenceId : Option Nat
  referenceNumber : Option String
  description : String
  grossAmount : ℚ
  feeAmount : ℚ
  netAmount : ℚ
  deriving DecidableEq, Repr

structure Payout where
  id : Nat
  payoutReference : String
  subMerchantId : Nat
  settlementId : Option Nat
  amount : ℚ
  fee : ℚ
  netAmount : ℚ
  payoutMethod : PayoutMethod
  status : PayoutStatus
  retryCount : Nat
  maxRetries : Nat
  processorReference : Option String
  processorStatus : Option String
  processorResponse : Option String
  failureCode : Option String
  failureMessage : Option String
  scheduledDate : Nat
  requiresApproval : Bool
  approvedBy : Option String
  initiatedAt : Option Nat
  completedAt : Option Nat
  batchId : Option Nat
  notes : Option String
  deriving DecidableEq, Repr

structure PayoutBatch where
  id : Nat
  batchReference : String
  payoutMethod : PayoutMethod
  scheduledDate : Nat
  totalAmount : ℚ
  totalFees : ℚ
  payoutCount : Nat
  status : String
  successfulCount : Nat
  failedCount : Nat
  processedAt : Option Nat
  deriving DecidableEq, Repr

/-- Fire-and-forget notification sink events, collected as values. -/
inductive Notification
  | settlementCreated (subMerchantId settlementId : Nat)
  | payoutNotify (subMerchantId payoutId : Nat) (kind : String)
  | payoutFailureAlert (payoutId : Nat)
  deriving DecidableEq, Repr

/-- The persisted tables the settlement engine touches. -/
structure Store where
  subMerchants : List SubMerchant
  transactions : List Transaction
  refunds : List Refund
  disputes : List Dispute
  reserves : List Reserve
  settlements : List Settlement
  settlementItems : List SettlementItem
  payouts : List Payout
  deriving DecidableEq, Repr

/-! ## Settlement engine (`SettlementEngineService`, src/unnamed/part_006) -/

namespace SettlementEngine

/-- The `subMerchant.settlementDayOfMonth || 1` default in
`shouldSettleToday`: JS `||` maps both a missing value and a configured
0 to the default 1. -/
def effectiveSettlementDayOfMonth (sm : SubMerchant) : Nat :=
  match sm.settlementDayOfMonth with
  | none => 1
  | some m => if m = 0 then 1 else m

/-- `shouldSettleToday(subMerchant, date)` (part_006 lines 134-158).
`dayOfWeek` is `date.getDay()` (0 = Sunday), `dayOfMonth` is
`date.getDate()`.  JS `x || 0` on the configured weekday is `getD 0`
(0 is JS-falsy but the default is also 0).  `Math.floor` on a
nonnegative quotient is `Nat` division, so the biweekly week-of-month
parity test `Math.floor(dayOfMonth / 7) % 2 === 0` is
`dayOfMonth / 7 % 2 == 0`. -/
def shouldSettleToday (sm : SubMerchant) (dayOfWeek dayOfMonth : Nat) : Bool :=
  match sm.settlementCycle with
  | .d0 | .d1 | .d2 | .d3 => true
  | .weekly => dayOfWeek == sm.settlementDayOfWeek.getD 0
  | .biweekly =>
      dayOfWeek == sm.settlementDayOfWeek.getD 0 && dayOfMonth / 7 % 2 == 0
  | .monthly => dayOfMonth == effectiveSettlementDayOfMonth sm
  | .other => true

/-- `getSettlementCycleDays` (part_006 lines 248-264). -/
def getSettlementCycleDays (cycle : SettlementCycle) : Nat :=
  match cycle with
  | .d0 | .d1 | .d2 | .d3 => 1
  | .weekly => 7
  | .biweekly => 14
  | .monthly => 30
  | .other => 1

/-- `getSettlementPeriod` (part_006 lines 231-246) at day granularity:
`periodEnd` is the settlement date (end of day), `periodStart` is
`date − (cycleDays − 1)` (start of day). -/
def getSettlementPeriod (sm : SubMerchant) (settlementDate : Nat) : Nat × Nat :=
  (settlementDate - (getSettlementCycleDays sm.settlementCycle - 1),
   settlementDate)

/-- Result of `calculateAmounts` (the `SettlementCalculation` interface,
part_006 lines 28-51). -/
structure SettlementCalculation where
  subMerchantId : Nat
  periodStart : Nat
  periodEnd : Nat
  grossSales : ℚ
  grossRefunds : ℚ
  grossDisputes : ℚ
  grossAmount : ℚ
  processorFees : ℚ
  platformFees : ℚ
  refundFees : ℚ
  disputeFees : ℚ
  totalFees : ℚ
  reserveHeld : ℚ
  reserveReleased : ℚ
  netAmount : ℚ
  transactionCount : Nat
  refundCount : Nat
  disputeCount : Nat
  transactions : List Transaction
  refunds : List Refund
  disputes : List Dispute
  releasableReserves : List Reserve
  deriving DecidableEq, Repr

/-- The `subMerchant?.reservePercentage || 0` lookup inside
`calculateAmounts` (part_006 lines 350-354). -/
def reservePercentageOf (store : Store) (subMerchantId : Nat) : ℚ :=
  (((store.subMerchants.find? (fun m => m.id == subMerchantId)).bind
    SubMerchant.reservePercentage).getD 0)

/-- The aggregation half of `calculateAmounts` (the "Calculate totals"
section, part_006 lines 313-383), over the already-queried rows: exact
sums per row kind, with only `reserveHeld` passing through
`toDecimalPlaces(2)`. -/
def aggregateAmounts (subMerchantId periodStart periodEnd : Nat)
    (transactions : List Transaction) (refunds : List Refund)
    (disputes : List Dispute) (releasableReserves : List Reserve)
    (reservePercentage : ℚ) : SettlementCalculation :=
  let grossSales := sumBy transactions (fun t => t.amount)
  let processorFees := sumBy transactions (fun t => t.processorFee.getD 0)
  let platformFees := sumBy transactions (fun t => t.platformFee.getD 0)
  let grossRefunds := sumBy refunds (fun r => r.amount)
  let refundFees := sumBy refunds (fun r => r.refundFee.getD 0)
  let grossDisputes := sumBy disputes (fun d => d.amount)
  let disputeFees := sumBy disputes (fun d => d.disputeFee.getD 0)
  let reserveReleased := sumBy releasableReserves (fun rs => rs.amount)
  let grossAmount := grossSales - grossRefunds - grossDisputes
  let totalFees := processorFees + platformFees + refundFees + disputeFees
  let netBeforeReserve := grossAmount - totalFees
  let reserveHeld := toDecimalPlaces2 (grossSales * reservePercentage)
  let netAmount := netBeforeReserve - reserveHeld + reserveReleased
  { subMerchantId := subMerchantId
    periodStart := periodStart
    periodEnd := periodEnd
    grossSales := grossSales
    grossRefunds := grossRefunds
    grossDisputes := grossDisputes
    grossAmount := grossAmount
    processorFees := processorFees
    platformFees := platformFees
    refundFees := refundFees
    disputeFees := disputeFees
    totalFees := totalFees
    reserveHeld := reserveHeld
    reserveReleased := reserveReleased
    netAmount := netAmount
    transactionCount := transactions.length
    refundCount := refunds.length
    disputeCount := disputes.length
    transactions := transactions
    refunds := refunds
    disputes := disputes
    releasableReserves := releasableReserves }

/-- `calculateAmounts(subMerchantId, periodStart, periodEnd)`
(part_006 lines 269-383): query unsettled captured transactions,
completed refunds and lost disputes in the period, held reserves with
`releaseDate ≤ periodEnd`, and the sub-merchant's
`reservePercentage || 0`, then aggregate. -/
def calculateAmounts (store : Store) (subMerchantId : Nat)
    (periodStart periodEnd : Nat) : SettlementCalculation :=
  let transactions := store.transactions.filter (fun t =>
    t.subMerchantId == subMerchantId && t.txStatus == "captured" &&
    t.settlementId == none &&
    periodStart ≤ t.capturedAt && t.capturedAt ≤ periodEnd)
  let refunds := store.refunds.filter (fun r =>
    r.subMerchantId == subMerchantId && r.rfStatus == "completed" &&
    r.settlementId == none &&
    periodStart ≤ r.completedAt && r.completedAt ≤ periodEnd)
  let disputes := store.disputes.filter (fun d =>
    d.subMerchantId == subMerchantId && d.dpStatus == "lost" &&
    d.settlementId == none &&
    periodStart ≤ d.resolvedAt && d.resolvedAt ≤ periodEnd)
  let releasableReserves := store.reserves.filter (fun rs =>
    rs.subMerchantId == subMerchantId && rs.rsStatus == "held" &&
    rs.releaseDate ≤ periodEnd)
  aggregateAmounts subMerchantId periodStart periodEnd transactions refunds
    disputes releasableReserves (reservePercentageOf store subMerchantId)

/-- The calculation `calculateSettlementForMerchant` performs for a
sub-merchant and settlement date: `calculateAmounts` over the period
from `getSettlementPeriod`. -/
def calcForPeriod (store : Store) (sm : SubMerchant)
    (settlementDate : Nat) : SettlementCalculation :=
  calculateAmounts store sm.id
    (getSettlementPeriod sm settlementDate).1
    (getSettlementPeriod sm settlementDate).2

/-- The `minimumPayoutAmount || 100` threshold check in
`calculateSettlementForMerchant` (part_006 line 189): JS `||` maps both a
missing value and a configured 0 to the default 100. -/
def effectiveMinimumPayout (sm : SubMerchant) : ℚ :=
  match sm.minimumPayoutAmount with
  | none => 100
  | some m => if m = 0 then 100 else m

/-- `shouldAutoApprove` (part_006 lines 573-583): high-risk merchants
(`riskScore > 70`; a missing or 0 score is JS-falsy and passes) require
manual review, otherwise auto-approve net amounts up to 50000. -/
def shouldAutoApprove (sm : SubMerchant) (netAmount : ℚ) : Bool :=
  match sm.riskScore with
  | some r => if 70 < r then false else netAmount ≤ 50000
  | none => netAmount ≤ 50000

/-- `calculatePayoutFee` (part_006 lines 649-660), flat per-method fees. -/
def calculatePayoutFee (method : PayoutMethod) : ℚ :=
  match method with
  | .bankTransfer => 10
  | .instapay => 5
  | .wallet => 3

/-- `getPayoutDate` (part_006 lines 685-704): day offset from today by
settlement cycle (default offset 1). -/
def getPayoutDate (cycle : SettlementCycle) (today : Nat) : Nat :=
  match cycle with
  | .d0 => today
  | .d1 => today + 1
  | .d2 => today + 2
  | .d3 => today + 3
  | _ => today + 1

/-- Identifiers and references generated during one
`calculateSettlementForMerchant` run (the source draws fresh row ids from
the database and random references from `generateSettlementReference`). -/
structure FreshIds where
  settlementId : Nat
  settlementRef : String
  reserveId : Nat
  payoutId : Nat
  payoutRef : String
  deriving DecidableEq, Repr

/-- `createSettlement` (part_006 lines 388-419): persist the calculation
as a `Settlement` row in status `calculated`. -/
def createSettlementRecord (sm : SubMerchant) (settlementDate : Nat)
    (cal : SettlementCalculation) (fresh : FreshIds) (now : Nat) :
    Settlement :=
  { id := fresh.settlementId
    settlementReference := fresh.settlementRef
    subMerchantId := sm.id
    settlementDate := settlementDate
    periodStart := cal.periodStart
    periodEnd := cal.periodEnd
    grossSales := cal.grossSales
    grossRefunds := cal.grossRefunds
    grossDisputes := cal.grossDisputes
    grossAmount := cal.grossAmount
    processorFees := cal.processorFees
    platformFees := cal.platformFees
    refundFees := cal.refundFees
    disputeFees := cal.disputeFees
    totalFees := cal.totalFees
    reserveHeld := cal.reserveHeld
    reserveReleased := cal.reserveReleased
    netAmount := cal.netAmount
    transactionCount := cal.transactionCount
    refundCount := cal.refundCount
    disputeCount := cal.disputeCount
    status := .calculated
    adjustmentNotes := none
    payoutId := none
    approvedBy := none
    approvedAt := none
    calculatedAt := now }

/-- `createSettlementItems` (part_006 lines 424-498): one line item per
transaction, refund and dispute, one synthetic item when a reserve is
held, and one item per released reserve. -/
def buildSettlementItems (sid : Nat) (cal : SettlementCalculation) :
    List SettlementItem :=
  (cal.transactions.map (fun tx =>
    { settlementId := sid
      itemType := "transaction"
      referenceId := some tx.id
      referenceNumber := some tx.transactionReference
      description := "Payment - " ++ tx.paymentMethod
      grossAmount := tx.amount
      feeAmount := tx.processorFee.getD 0 + tx.platformFee.getD 0
      netAmount := tx.netAmount })) ++
  (cal.refunds.map (fun r =>
    { settlementId := sid
      itemType := "refund"
      referenceId := some r.id
      referenceNumber := some r.refundReference
      description := "Refund"
      grossAmount := -r.amount
      feeAmount := r.refundFee.getD 0
      netAmount := -r.netAmount })) ++
  (cal.disputes.map (fun d =>
    { settlementId := sid
      itemType := "dispute"
      referenceId := some d.id
      referenceNumber := some d.disputeReference
      description := "Dispute - " ++ d.reasonCode
      grossAmount := -d.amount
      feeAmount := d.disputeFee.getD 0
      netAmount := -(d.amount + d.disputeFee.getD 0) })) ++
  (if 0 < cal.reserveHeld then
    [{ settlementId := sid
       itemType := "reserve"
       referenceId := none
       referenceNumber := none
       description := "Rolling reserve held"
       grossAmount := 0
       feeAmount := 0
       netAmount := -cal.reserveHeld }]
   else []) ++
  (cal.releasableReserves.map (fun rs =>
    { settlementId := sid
      itemType := "reserve"
      referenceId := some rs.id
      referenceNumber := none
      description := "Rolling reserve released"
      grossAmount := 0
      feeAmount := 0
      netAmount := rs.amount }))

/-- `processReserves` (part_006 lines 542-568): create a new `held`
reserve for `reserveHeld` (release date = today + `reserveDays || 90`)
when positive, and flip each releasable reserve to `released`. -/
def processReserves (store : Store) (sm : SubMerchant) (sid : Nat)
    (cal : SettlementCalculation) (fresh : FreshIds) (now : Nat) : Store :=
  let withNew :=
    if 0 < cal.reserveHeld then
      store.reserves ++
        [{ id := fresh.reserveId
           subMerchantId := sm.id
           settlementId := some sid
           reserveType := "rolling"
           amount := cal.reserveHeld
           releaseDate := now + sm.reserveDays.getD 90
           rsStatus := "held"
           releasedAt := none }]
    else store.reserves
  let releasableIds := cal.releasableReserves.map (fun rs => rs.id)
  { store with reserves := withNew.map (fun rs =>
      if releasableIds.contains rs.id then
        { rs with rsStatus := "released", releasedAt := some now }
      else rs) }

/-- `approveSettlement` followed by `createPayoutForSettlement`
(part_006 lines 588-647) as invoked on the auto-approve path: mark the
settlement `approved` (by `"system"`), create the payout through the
payout service's `createPayout` (netAmount = amount − fee; initial status
`pending` when the amount exceeds the 50000 auto-approve threshold,
`approved` otherwise), and record the payout id on the settlement.
The source re-queries the sub-merchant by `settlement.subMerchantId`;
here the caller's record is passed directly.  `retryCount = 0` and
`maxRetries = 3` are the payout entity's column defaults (entity file not
in the excerpt; the spec's retry examples fix `maxRetries = 3`). -/
def approveSettlementStep (store : Store) (sm : SubMerchant)
    (s : Settlement) (fresh : FreshIds) (now : Nat) : Store :=
  let sApproved : Settlement :=
    { s with status := .approved, approvedAt := some now,
             approvedBy := some "system" }
  let payoutFee := calculatePayoutFee sm.payoutMethod
  let needsApproval : Bool := 50000 < sApproved.netAmount
  let payout : Payout :=
    { id := fresh.payoutId
      payoutReference := fresh.payoutRef
      subMerchantId := sm.id
      settlementId := some s.id
      amount := sApproved.netAmount
      fee := payoutFee
      netAmount := sApproved.netAmount - payoutFee
      payoutMethod := sm.payoutMethod
      status := if needsApproval then .pending else .approved
      retryCount := 0
      maxRetries := 3
      processorReference := none
      processorStatus := none
      processorResponse := none
      failureCode := none
      failureMessage := none
      scheduledDate := getPayoutDate sm.settlementCycle now
      requiresApproval := needsApproval
      approvedBy := none
      initiatedAt := none
      completedAt := none
      batchId := none
      notes := none }
  let sFinal := { sApproved with payoutId := some fresh.payoutId }
  { store with
      settlements := store.settlements.map (fun x =>
        if x.id == s.id then sFinal else x)
      payouts := store.payouts ++ [payout] }

/-- Result of one `calculateSettlementForMerchant` run: the created
settlement (if any), the updated store, and the emitted notifications. -/
structure CalcOutcome where
  settlement : Option Settlement
  store : Store
  notifications : List Notification
  deriving DecidableEq, Repr

/-- `calculateSettlementForMerchant(subMerchant, settlementDate)`
(part_006 lines 163-226): derive the period, run `calculateAmounts`,
return `null` on zero activity or when `netAmount` is below the
`minimumPayoutAmount || 100` threshold; otherwise persist the settlement
and its items, claim the contributing ledger rows, process reserves,
auto-approve when eligible, and notify the merchant. -/
def calculateSettlementForMerchant (sm : SubMerchant)
    (settlementDate : Nat) (store : Store) (fresh : FreshIds) (now : Nat) :
    CalcOutcome :=
  let period := getSettlementPeriod sm settlementDate
  let cal := calculateAmounts store sm.id period.1 period.2
  if cal.transactionCount == 0 && cal.refundCount == 0 &&
     cal.disputeCount == 0 && cal.releasableReserves.isEmpty then
    { settlement := none, store := store, notifications := [] }
  else if cal.netAmount < effectiveMinimumPayout sm then
    { settlement := none, store := store, notifications := [] }
  else
    let settlement := createSettlementRecord sm settlementDate cal fresh now
    let txIds := cal.transactions.map (fun t => t.id)
    let rfIds := cal.refunds.map (fun r => r.id)
    let dpIds := cal.disputes.map (fun d => d.id)
    let store1 :=
      { store with
          settlements := store.settlements ++ [settlement]
          settlementItems :=
            store.settlementItems ++ buildSettlementItems settlement.id cal
          transactions := store.transactions.map (fun t =>
            if txIds.contains t.id then
              { t with settlementId := some settlement.id,
                       settledAt := some now }
            else t)
          refunds := store.refunds.map (fun r =>
            if rfIds.contains r.id then
              { r with settlementId := some settlement.id }
            else r)
          disputes := store.disputes.map (fun d =>
            if dpIds.contains d.id then
              { d with settlementId := some settlement.id }
            else d) }
    let store2 := processReserves store1 sm settlement.id cal fresh now
    let store3 :=
      if shouldAutoApprove sm cal.netAmount then
        approveSettlementStep store2 sm settlement fresh now
      else store2
    { settlement := some settlement
      store := store3
      notifications := [.settlementCreated sm.id settlement.id] }

/-- `rejectSettlement(settlementId, rejectedBy, reason)` (part_006 lines
750-779): null the settlement id (and `settledAt`) on linked
transactions, null the settlement id on linked refunds, set the
settlement to `on_hold` with the reason in `adjustmentNotes`.  The
`rejectedBy` argument is accepted but not recorded, as in the source;
disputes and reserves are not touched. -/
def rejectSettlement (store : Store) (settlementId : Nat)
    (_rejectedBy reason : String) : Except String (Store × Settlement) :=
  match store.settlements.find? (fun s => s.id == settlementId) with
  | none => .error "Settlement not found"
  | some s =>
    let transactions := store.transactions.map (fun t =>
      if t.settlementId == some settlementId then
        { t with settlementId := none, settledAt := none }
      else t)
    let refunds := store.refunds.map (fun r =>
      if r.settlementId == some settlementId then
        { r with settlementId := none }
      else r)
    let s2 : Settlement :=
      { s with status := .onHold, adjustmentNotes := some reason }
    let settlements := store.settlements.map (fun x =>
      if x.id == settlementId then s2 else x)
    .ok ({ store with transactions := transactions, refunds := refunds,
                      settlements := settlements }, s2)

end SettlementEngine

/-! ## Payout service (src/src/payfac/payout/payout.service.ts) -/

namespace PayoutSvc

/-- Outcome of one dispatch to a method-specific transfer capability
(the `result` of `processInstapayPayout` / `processBankTransferPayout` /
`processWalletPayout`, or a thrown error). -/
inductive AttemptOutcome
  | success (reference : String)
  | failure (message : String)
  deriving DecidableEq, Repr

/-- `processPayout(payoutId)` (payout.service.ts lines 163-245), applied
to the payout row it operates on.  Only `approved` payouts are
processed; on rail success the payout moves to `sent` and the merchant
is notified; on failure the retry count is incremented and the payout
either returns to `approved` (under `maxRetries`) or becomes terminally
`failed` with an operations alert. -/
def processPayout (p : Payout) (outcome : AttemptOutcome) (now : Nat) :
    Payout × List Notification × Bool :=
  if p.status ≠ .approved then (p, [], false)
  else
    let p1 := { p with status := .processing, initiatedAt := some now }
    match outcome with
    | .success ref =>
        ({ p1 with status := .sent, processorReference := some ref,
                   processorStatus := some "sent" },
         [.payoutNotify p.subMerchantId p.id "sent"], true)
    | .failure msg =>
        let p2 := { p1 with retryCount := p1.retryCount + 1,
                            failureCode := some "PROCESSING_ERROR",
                            failureMessage := some msg }
        if p2.maxRetries ≤ p2.retryCount then
          ({ p2 with status := .failed }, [.payoutFailureAlert p.id], false)
        else
          ({ p2 with status := .approved }, [], false)

/-- The `status` argument of `confirmPayoutCompletion`. -/
inductive ConfirmStatus
  | completed | failed
  deriving DecidableEq, Repr

/-- `confirmPayoutCompletion(processorReference, status, details)`
(payout.service.ts lines 385-423): look up the payout by processor
reference (unknown reference: log and return, no change); on `completed`
mark completed and notify the merchant; on `failed` mark failed (failure
message `details?.reason || 'Transfer failed'`) and alert operations.
`details` is modelled by its `reason` field. -/
def confirmPayoutCompletion (payouts : List Payout) (ref : String)
    (status : ConfirmStatus) (details : Option String) (now : Nat) :
    List Payout × List Notification :=
  match payouts.find? (fun p => p.processorReference == some ref) with
  | none => (payouts, [])
  | some p =>
    let p2 :=
      match status with
      | .completed =>
          { p with status := .completed, completedAt := some now,
                   processorStatus := some "completed",
                   processorResponse := details }
      | .failed =>
          { p with status := .failed, processorStatus := some "failed",
                   processorResponse := details,
                   failureMessage := some (details.getD "Transfer failed") }
    let notifications :=
      match status with
      | .completed => [Notification.payoutNotify p.subMerchantId p.id "completed"]
      | .failed => [Notification.payoutFailureAlert p.id]
    (payouts.map (fun q => if q.id == p.id then p2 else q), notifications)

end PayoutSvc

/-! ## Payout service variant in src/unnamed/part_003 -/

namespace PayoutSvc3

/-- The selection made by the `retryFailedPayouts` sweep (part_003 lines
820-841): fetch all payouts with status `failed`, then keep those with
`retryCount < maxRetries`. -/
def retriablePayouts (payouts : List Payout) : List Payout :=
  (payouts.filter (fun p => p.status == .failed)).filter
    (fun p => p.retryCount < p.maxRetries)

/-- Result of `bankTransferService.submitBatch`: a returned
`{success}` flag, or a thrown error. -/
inductive BatchOutcome
  | ok (success : Bool)
  | exnError (message : String)
  deriving DecidableEq, Repr

/-- `processBankTransferBatch(payouts)` (part_003 lines 1026-1088):
create a batch record (`processing`, totals summed over members), link
every member to the batch, submit the batch as one request, then: on a
successful result mark all members `sent` (batch stays `processing`
pending reconciliation, with `processedAt` stamped); on an unsuccessful
result mark only the batch `failed`; on a thrown error mark the batch
`failed` and every member `failed` with the error message and an
incremented retry count. -/
def processBankTransferBatch (payouts : List Payout) (batchId : Nat)
    (batchRef : String) (now : Nat) (outcome : BatchOutcome) :
    PayoutBatch × List Payout :=
  let batch : PayoutBatch :=
    { id := batchId
      batchReference := batchRef
      payoutMethod := .bankTransfer
      scheduledDate := now
      totalAmount := sumBy payouts (fun p => p.netAmount)
      totalFees := sumBy payouts (fun p => p.fee)
      payoutCount := payouts.length
      status := "processing"
      successfulCount := 0
      failedCount := 0
      processedAt := none }
  let linked := payouts.map (fun p => { p with batchId := some batchId })
  match outcome with
  | .ok true =>
      ({ batch with status := "processing", processedAt := some now },
       linked.map (fun p => { p with status := .sent }))
  | .ok false =>
      ({ batch with status := "failed" }, linked)
  | .exnError msg =>
      ({ batch with status := "failed" },
       linked.map (fun p =>
         { p with status := .failed, failureMessage := some msg,
                  retryCount := p.retryCount + 1 }))

/-- `handlePayoutWebhook(provider, reference, status, data)` (part_003
lines 1212-1249): look up the payout by processor reference (unknown
reference: log and return, no change); fold the webhook status into the
payout and notify accordingly.  `data` is modelled by its `reason`
field; the sub-merchant is taken to be present for notification
delivery. -/
def handlePayoutWebhook (payouts : List Payout) (reference : String)
    (status : String) (dataReason : Option String) (now : Nat) :
    List Payout × List Notification :=
  match payouts.find? (fun p => p.processorReference == some reference) with
  | none => (payouts, [])
  | some p =>
    let step :
        Payout × List Notification :=
      if status == "completed" || status == "success" then
        ({ p with status := .completed, completedAt := some now },
         [.payoutNotify p.subMerchantId p.id "success"])
      else if status == "failed" || status == "rejected" then
        let p2 := { p with status := .failed,
                           failureMessage :=
                             some (dataReason.getD "Payment failed"),
                           retryCount := p.retryCount + 1 }
        (p2, if p2.maxRetries ≤ p2.retryCount then
               [.payoutNotify p.subMerchantId p.id "failed"]
             else [])
      else if status == "returned" then
        ({ p with status := .returned,
                  failureMessage := some (dataReason.getD "Payment returned") },
         [.payoutNotify p.subMerchantId p.id "failed"])
      else (p, [])
    let p3 := { step.1 with processorResponse := dataReason }
    (payouts.map (fun q => if q.id == p.id then p3 else q), step.2)

end PayoutSvc3

/-! ## Concrete fixtures used to instantiate theorems on closed inputs -/

namespace Fixtures

def baseSM : SubMerchant :=
  { id := 7
    merchantCode := "HP-0007"
    smStatus := "active"
    settlementCycle := .d1
    settlementDayOfWeek := none
    settlementDayOfMonth := none
    reservePercentage := none
    reserveDays := none
    minimumPayoutAmount := none
    riskScore := none
    payoutMethod := .bankTransfer }

def baseTx : Transaction :=
  { id := 11
    subMerchantId := 7
    txStatus := "captured"
    amount := 100
    processorFee := some (5/2)
    platformFee := some 1
    netAmount := 193/2
    capturedAt := 3
    settlementId := none
    settledAt := none
    transactionReference := "TXN-11"
    paymentMethod := "card" }

def baseRefund : Refund :=
  { id := 21
    subMerchantId := 7
    rfStatus := "completed"
    amount := 10
    refundFee := some 1
    netAmount := 11
    completedAt := 3
    settlementId := none
    refundReference := "RFD-21" }

def baseDispute : Dispute :=
  { id := 31
    subMerchantId := 7
    dpStatus := "lost"
    amount := 5
    disputeFee := some 2
    resolvedAt := 3
    settlementId := none
    disputeReference := "DSP-31"
    reasonCode := "fraud" }

def baseReserve : Reserve :=
  { id := 41
    subMerchantId := 7
    settlementId := some 90
    reserveType := "rolling"
    amount := 20
    releaseDate := 4
    rsStatus := "held"
    releasedAt := none }

def baseSettlement : Settlement :=
  { id := 1
    settlementReference := "STL-1"
    subMerchantId := 7
    settlementDate := 5
    periodStart := 5
    periodEnd := 5
    grossSales := 100
    grossRefunds := 10
    grossDisputes := 5
    grossAmount := 85
    processorFees := 5/2
    platformFees := 1
    refundFees := 1
    disputeFees := 2
    totalFees := 13/2
    reserveHeld := 0
    reserveReleased := 0
    netAmount := 157/2
    transactionCount := 1
    refundCount := 1
    disputeCount := 1
    status := .calculated
    adjustmentNotes := none
    payoutId := none
    approvedBy := none
    approvedAt := none
    calculatedAt := 5 }

def emptyStore : Store :=
  { subMerchants := []
    transactions := []
    refunds := []
    disputes := []
    reserves := []
    settlements := []
    settlementItems := []
    payouts := [] }

def basePayout : Payout :=
  { id := 1
    payoutReference := "PAY-1"
    subMerchantId := 7
    settlementId := none
    amount := 100
    fee := 5
    netAmount := 95
    payoutMethod := .bankTransfer
    status := .pending
    retryCount := 0
    maxRetries := 3
    processorReference := none
    processorStatus := none
    processorResponse := none
    failureCode := none
    failureMessage := none
    scheduledDate := 0
    requiresApproval := false
    approvedBy := none
    initiatedAt := none
    completedAt := none
    batchId := none
    notes := none }

def baseFresh : SettlementEngine.FreshIds :=
  { settlementId := 1
    settlementRef := "STL-1"
    reserveId := 2
    payoutId := 3
    payoutRef := "PAY-3" }

/-- Store for the C4 witness: one sub-merchant holding a 10% rolling
reserve and one captured transaction in the period. -/
def storeC4 : Store :=
  { emptyStore with
      subMerchants := [{ baseSM with reservePercentage := some (1/10) }]
      transactions := [{ baseTx with amount := 201/2 }] }

/-- Store for the C8 witness: a calculated settlement with one linked
transaction, refund, dispute and reserve, plus unlinked rows. -/
def storeC8 : Store :=
  { emptyStore with
      transactions :=
        [{ baseTx with settlementId := some 1, settledAt := some 5 },
         { baseTx with id := 12 }]
      refunds := [{ baseRefund with settlementId := some 1 }]
      disputes := [{ baseDispute with settlementId := some 1 }]
      reserves := [{ baseReserve with settlementId := some 1 }]
      settlements := [baseSettlement] }

/-- Store for the C9 witness: a sub-merchant with `minimumPayoutAmount`
configured to 0 and one captured 50 EGP transaction in the period. -/
def storeC9 : Store :=
  { emptyStore with
      subMerchants := [{ baseSM with minimumPayoutAmount := some 0 }]
      transactions := [{ baseTx with amount := 50 }] }

def smC9 : SubMerchant := { baseSM with minimumPayoutAmount := some 0 }

/-- A payout already dispatched to the rail, awaiting confirmation. -/
def payoutC2 : Payout :=
  { basePayout with processorReference := some "PR-1", status := .sent }

/-- An approved payout about to be processed. -/
def payoutC3 : Payout := { basePayout with status := .approved }

/-- A payout whose processor reference differs from the probed one. -/
def payoutC10 : Payout :=
  { basePayout with processorReference := some "REF-A" }

end Fixtures

/-! ## Helper lemmas -/

theorem isCents_iff {x : ℚ} : isCents x ↔ ∃ n : ℤ, x = (n : ℚ) / 100 := by
  constructor
  · intro h
    refine ⟨(x * 100).num, ?_⟩
    have hx : ((x * 100).num : ℚ) = x * 100 := by
      exact_mod_cast (Rat.den_eq_one_iff (x * 100)).mp h
    field_simp [hx]
  · rintro ⟨n, rfl⟩
    have h100 : (n : ℚ) / 100 * 100 = (n : ℚ) := by field_simp
    unfold isCents
    rw [h100]
    exact Rat.den_intCast n

theorem isCents_add {x y : ℚ} (hx : isCents x) (hy : isCents y) :
    isCents (x + y) := by
  rcases isCents_iff.mp hx with ⟨m, rfl⟩
  rcases isCents_iff.mp hy with ⟨n, rfl⟩
  exact isCents_iff.mpr ⟨m + n, by push_cast; ring⟩

theorem isCents_neg {x : ℚ} (hx : isCents x) : isCents (-x) := by
  rcases isCents_iff.mp hx with ⟨m, rfl⟩
  exact isCents_iff.mpr ⟨-m, by push_cast; ring⟩

theorem isCents_sub {x y : ℚ} (hx : isCents x) (hy : isCents y) :
    isCents (x - y) := by
  have h := isCents_add hx (isCents_neg hy)
  simpa [sub_eq_add_neg] using h

theorem isCents_zero : isCents 0 := isCents_iff.mpr ⟨0, by norm_num⟩

theorem isCents_of {x : ℚ} (n : ℤ) (h : x = (n : ℚ) / 100) : isCents x :=
  isCents_iff.mpr ⟨n, h⟩

theorem isCents_toDecimalPlaces2 (x : ℚ) : isCents (toDecimalPlaces2 x) := by
  unfold toDecimalPlaces2
  by_cases h : x < 0
  · simp only [if_pos h]
    exact isCents_neg (isCents_iff.mpr ⟨⌊(-x) * 100 + 1/2⌋, rfl⟩)
  · simp only [if_neg h]
    exact isCents_iff.mpr ⟨⌊x * 100 + 1/2⌋, rfl⟩

/-- The source's rounding (decimal.js `ROUND_HALF_UP`) is exactly the
spec's round-half-away-from-zero. -/
theorem toDecimalPlaces2_eq_roundHalfAwayFromZero2 (x : ℚ) :
    toDecimalPlaces2 x = roundHalfAwayFromZero2 x := by
  unfold toDecimalPlaces2 roundHalfAwayFromZero2
  by_cases h : x < 0
  · simp [if_pos h, abs_of_neg h]
  · simp [if_neg h, abs_of_nonneg (not_lt.mp h)]

theorem sumBy_isCents {α : Type} (l : List α) (f : α → ℚ)
    (h : ∀ a ∈ l, isCents (f a)) : isCents (sumBy l f) := by
  suffices H : ∀ c : ℚ, isCents c → isCents (l.foldl (fun s a => s + f a) c) by
    exact H 0 isCents_zero
  induction l with
  | nil => intro c hc; simpa using hc
  | cons a t ih =>
    intro c hc
    simp only [List.foldl_cons]
    exact ih (fun b hb => h b (List.mem_cons_of_mem a hb))
      _ (isCents_add hc (h a (List.mem_cons_self a t)))

/-- Both skip branches of `calculateSettlementForMerchant` return `null`
and leave the store untouched. -/
theorem calcForMerchant_skip (sm : SubMerchant) (settlementDate : Nat)
    (store : Store) (fresh : SettlementEngine.FreshIds) (now : Nat)
    (h : ((SettlementEngine.calcForPeriod store sm settlementDate).transactionCount = 0 ∧
          (SettlementEngine.calcForPeriod store sm settlementDate).refundCount = 0 ∧
          (SettlementEngine.calcForPeriod store sm settlementDate).disputeCount = 0 ∧
          (SettlementEngine.calcForPeriod store sm settlementDate).releasableReserves = []) ∨
         (SettlementEngine.calcForPeriod store sm settlementDate).netAmount <
           SettlementEngine.effectiveMinimumPayout sm) :
    SettlementEngine.calculateSettlementForMerchant sm settlementDate store
      fresh now = ⟨none, store, []⟩ := by
  unfold SettlementEngine.calcForPeriod at h
  simp only [SettlementEngine.calculateSettlementForMerchant]
  rcases h with ⟨h1, h2, h3, h4⟩ | h
  · simp [h1, h2, h3, h4]
  · split_ifs <;> rfl

/-! ## Claims -/

/-- Claim C1: for every settlement calculation produced by
`calculateAmounts`, the net amount equals grossSales − grossRefunds −
grossDisputes − totalFees − reserveHeld + reserveReleased (with
grossAmount = grossSales − grossRefunds − grossDisputes and totalFees
the sum of processor, platform, refund and dispute fees).  The embedding
is exact rational arithmetic, so the identity is exact — in particular
exact to 2 decimal places — for all inputs. -/
theorem claim_C1_net_amount_conservation (store : Store)
    (smId periodStart periodEnd : Nat) :
    (SettlementEngine.calculateAmounts store smId periodStart periodEnd).netAmount =
      (SettlementEngine.calculateAmounts store smId periodStart periodEnd).grossSales
      - (SettlementEngine.calculateAmounts store smId periodStart periodEnd).grossRefunds
      - (SettlementEngine.calculateAmounts store smId periodStart periodEnd).grossDisputes
      - (SettlementEngine.calculateAmounts store smId periodStart periodEnd).totalFees
      - (SettlementEngine.calculateAmounts store smId periodStart periodEnd).reserveHeld
      + (SettlementEngine.calculateAmounts store smId periodStart periodEnd).reserveReleased := by
  simp only [SettlementEngine.calculateAmounts, SettlementEngine.aggregateAmounts]

/-- Claim C2 is violated by the code (`confirmPayoutCompletion` has no
terminal-status guard): a second identical `completed` confirmation for
the same processor reference is not a no-op — the payout stays
`completed`, but the success notification to the sub-merchant is sent
again on the second call. -/
theorem claim_C2_second_confirm_notifies_again :
    (PayoutSvc.confirmPayoutCompletion [Fixtures.payoutC2] "PR-1"
        .completed none 10).2 = [.payoutNotify 7 1 "completed"] ∧
    (PayoutSvc.confirmPayoutCompletion
        (PayoutSvc.confirmPayoutCompletion [Fixtures.payoutC2] "PR-1"
          .completed none 10).1 "PR-1" .completed none 20).2 =
      [.payoutNotify 7 1 "completed"] ∧
    (PayoutSvc.confirmPayoutCompletion
        (PayoutSvc.confirmPayoutCompletion [Fixtures.payoutC2] "PR-1"
          .completed none 10).1 "PR-1" .completed none 20).1.map
      Payout.status = [.completed] := by
  decide

/-- Claim C3: with `maxRetries = 3`, each of the first two processing
failures returns the payout to `approved` for retry, the third failure
makes it terminally `failed` with `retryCount = 3`, and the
`retryFailedPayouts` sweep (which re-attempts only failed payouts with
`retryCount < maxRetries`) no longer selects it. -/
theorem claim_C3_retry_bound (p : Payout) (m1 m2 m3 : String)
    (t1 t2 t3 : Nat) (hst : p.status = .approved) (hrc : p.retryCount = 0)
    (hmr : p.maxRetries = 3) :
    let q1 := (PayoutSvc.processPayout p (.failure m1) t1).1
    let q2 := (PayoutSvc.processPayout q1 (.failure m2) t2).1
    let q3 := (PayoutSvc.processPayout q2 (.failure m3) t3).1
    q1.status = .approved ∧ q1.retryCount = 1 ∧
    q2.status = .approved ∧ q2.retryCount = 2 ∧
    q3.status = .failed ∧ q3.retryCount = 3 ∧
    PayoutSvc3.retriablePayouts [q3] = [] := by
  obtain ⟨i, pr, smid, sid, am, fe, na, pm, st, rc, mr, prr, pst, prsp, fc,
    fm, sd, ra, ab, ia, ca, bi, nt⟩ := p
  simp only at hst hrc hmr
  subst hst; subst hrc; subst hmr
  simp [PayoutSvc.processPayout, PayoutSvc3.retriablePayouts]

/-- Witness for C3: the retry bound evaluated on a concrete approved
payout failing three times. -/
theorem claim_C3_retry_bound_witness :
    Fixtures.payoutC3.status = .approved ∧
    Fixtures.payoutC3.retryCount = 0 ∧
    Fixtures.payoutC3.maxRetries = 3 ∧
    (let q1 := (PayoutSvc.processPayout Fixtures.payoutC3 (.failure "e1") 1).1
     let q2 := (PayoutSvc.processPayout q1 (.failure "e2") 2).1
     let q3 := (PayoutSvc.processPayout q2 (.failure "e3") 3).1
     q1.status = .approved ∧ q1.retryCount = 1 ∧
     q2.status = .approved ∧ q2.retryCount = 2 ∧
     q3.status = .failed ∧ q3.retryCount = 3 ∧
     PayoutSvc3.retriablePayouts [q3] = []) :=
  ⟨rfl, rfl, rfl,
   claim_C3_retry_bound Fixtures.payoutC3 "e1" "e2" "e3" 1 2 3 rfl rfl rfl⟩

/-- Claim C4: the settlement calculation is exact decimal arithmetic
(here: exact rationals, as decimal.js is exact for `plus`/`minus`/
`times`), and for 2-decimal-place inputs every persisted monetary amount
(grossSales, grossRefunds, grossDisputes, grossAmount, each fee total,
totalFees, reserveHeld, reserveReleased, netAmount) is a 2-decimal-place
value; `reserveHeld`, the only amount the code explicitly rounds, is
rounded with round-half-away-from-zero (decimal.js `ROUND_HALF_UP`), and
the remaining amounts are exact sums and differences of 2-decimal-place
inputs, which is the documented equivalent of rounding them. -/
theorem claim_C4_exact_decimal_two_places (store : Store)
    (smId periodStart periodEnd : Nat)
    (htx : ∀ t ∈ store.transactions, isCents t.amount ∧
      isCents (t.processorFee.getD 0) ∧ isCents (t.platformFee.getD 0))
    (hrf : ∀ r ∈ store.refunds, isCents r.amount ∧
      isCents (r.refundFee.getD 0))
    (hdp : ∀ d ∈ store.disputes, isCents d.amount ∧
      isCents (d.disputeFee.getD 0))
    (hrs : ∀ rs ∈ store.reserves, isCents rs.amount) :
    let c := SettlementEngine.calculateAmounts store smId periodStart periodEnd
    (isCents c.grossSales ∧ isCents c.grossRefunds ∧
     isCents c.grossDisputes ∧ isCents c.grossAmount ∧
     isCents c.processorFees ∧ isCents c.platformFees ∧
     isCents c.refundFees ∧ isCents c.disputeFees ∧ isCents c.totalFees ∧
     isCents c.reserveHeld ∧ isCents c.reserveReleased ∧
     isCents c.netAmount) ∧
    c.reserveHeld = roundHalfAwayFromZero2
      (c.grossSales * SettlementEngine.reservePercentageOf store smId) := by
  simp only [SettlementEngine.calculateAmounts, SettlementEngine.aggregateAmounts]
  have hS : isCents (sumBy (store.transactions.filter fun t =>
      t.subMerchantId == smId && t.txStatus == "captured" &&
      t.settlementId == none &&
      decide (periodStart ≤ t.capturedAt) && decide (t.capturedAt ≤ periodEnd))
      (fun t => t.amount)) :=
    sumBy_isCents _ _ (fun t ht => (htx t (List.mem_of_mem_filter ht)).1)
  have hPF : isCents (sumBy (store.transactions.filter fun t =>
      t.subMerchantId == smId && t.txStatus == "captured" &&
      t.settlementId == none &&
      decide (periodStart ≤ t.capturedAt) && decide (t.capturedAt ≤ periodEnd))
      (fun t => t.processorFee.getD 0)) :=
    sumBy_isCents _ _ (fun t ht => (htx t (List.mem_of_mem_filter ht)).2.1)
  have hLF : isCents (sumBy (store.transactions.filter fun t =>
      t.subMerchantId == smId && t.txStatus == "captured" &&
      t.settlementId == none &&
      decide (periodStart ≤ t.capturedAt) && decide (t.capturedAt ≤ periodEnd))
      (fun t => t.platformFee.getD 0)) :=
    sumBy_isCents _ _ (fun t ht => (htx t (List.mem_of_mem_filter ht)).2.2)
  have hR : isCents (sumBy (store.refunds.filter fun r =>
      r.subMerchantId == smId && r.rfStatus == "completed" &&
      r.settlementId == none &&
      decide (periodStart ≤ r.completedAt) && decide (r.completedAt ≤ periodEnd))
      (fun r => r.amount)) :=
    sumBy_isCents _ _ (fun r hr => (hrf r (List.mem_of_mem_filter hr)).1)
  have hRF : isCents (sumBy (store.refunds.filter fun r =>
      r.subMerchantId == smId && r.rfStatus == "completed" &&
      r.settlementId == none &&
      decide (periodStart ≤ r.completedAt) && decide (r.completedAt ≤ periodEnd))
      (fun r => r.refundFee.getD 0)) :=
    sumBy_isCents _ _ (fun r hr => (hrf r (List.mem_of_mem_filter hr)).2)
  have hD : isCents (sumBy (store.disputes.filter fun d =>
      d.subMerchantId == smId && d.dpStatus == "lost" &&
      d.settlementId == none &&
      decide (periodStart ≤ d.resolvedAt) && decide (d.resolvedAt ≤ periodEnd))
      (fun d => d.amount)) :=
    sumBy_isCents _ _ (fun d hd => (hdp d (List.mem_of_mem_filter hd)).1)
  have hDF : isCents (sumBy (store.disputes.filter fun d =>
      d.subMerchantId == smId && d.dpStatus == "lost" &&
      d.settlementId == none &&
      decide (periodStart ≤ d.resolvedAt) && decide (d.resolvedAt ≤ periodEnd))
      (fun d => d.disputeFee.getD 0)) :=
    sumBy_isCents _ _ (fun d hd => (hdp d (List.mem_of_mem_filter hd)).2)
  have hRR : isCents (sumBy (store.reserves.filter fun rs =>
      rs.subMerchantId == smId && rs.rsStatus == "held" &&
      decide (rs.releaseDate ≤ periodEnd)) (fun rs => rs.amount)) :=
    sumBy_isCents _ _ (fun rs hrss => hrs rs (List.mem_of_mem_filter hrss))
  have hH : isCents (toDecimalPlaces2
      ((sumBy (store.transactions.filter fun t =>
        t.subMerchantId == smId && t.txStatus == "captured" &&
        t.settlementId == none &&
        decide (periodStart ≤ t.capturedAt) && decide (t.capturedAt ≤ periodEnd))
        (fun t => t.amount)) *
        SettlementEngine.reservePercentageOf store smId)) :=
    isCents_toDecimalPlaces2 _
  refine ⟨⟨hS, hR, hD, isCents_sub (isCents_sub hS hR) hD,
    hPF, hLF, hRF, hDF,
    isCents_add (isCents_add (isCents_add hPF hLF) hRF) hDF,
    hH, hRR, ?_⟩, ?_⟩
  · exact isCents_add (isCents_sub (isCents_sub (isCents_sub (isCents_sub hS hR) hD)
      (isCents_add (isCents_add (isCents_add hPF hLF) hRF) hDF)) hH) hRR
  · exact toDecimalPlaces2_eq_roundHalfAwayFromZero2 _

/-- Witness for C4: the 2-decimal-place and rounding properties
evaluated on a concrete store (one 100.50 EGP transaction, 10% reserve). -/
theorem claim_C4_witness :
    (∀ t ∈ Fixtures.storeC4.transactions, isCents t.amount ∧
      isCents (t.processorFee.getD 0) ∧ isCents (t.platformFee.getD 0)) ∧
    (∀ r ∈ Fixtures.storeC4.refunds, isCents r.amount ∧
      isCents (r.refundFee.getD 0)) ∧
    (∀ d ∈ Fixtures.storeC4.disputes, isCents d.amount ∧
      isCents (d.disputeFee.getD 0)) ∧
    (∀ rs ∈ Fixtures.storeC4.reserves, isCents rs.amount) ∧
    (let c := SettlementEngine.calculateAmounts Fixtures.storeC4 7 0 5
     (isCents c.grossSales ∧ isCents c.grossRefunds ∧
      isCents c.grossDisputes ∧ isCents c.grossAmount ∧
      isCents c.processorFees ∧ isCents c.platformFees ∧
      isCents c.refundFees ∧ isCents c.disputeFees ∧ isCents c.totalFees ∧
      isCents c.reserveHeld ∧ isCents c.reserveReleased ∧
      isCents c.netAmount) ∧
     c.reserveHeld = roundHalfAwayFromZero2
       (c.grossSales * SettlementEngine.reservePercentageOf Fixtures.storeC4 7)) :=
  ⟨by
    intro t ht
    have he : t = { Fixtures.baseTx with amount := 201/2 } := by
      simpa [Fixtures.storeC4, Fixtures.emptyStore] using ht
    subst he
    exact ⟨isCents_of 10050 (by norm_num [Fixtures.baseTx]),
      isCents_of 250 (by norm_num [Fixtures.baseTx]),
      isCents_of 100 (by norm_num [Fixtures.baseTx])⟩,
   by intro r hr; simp [Fixtures.storeC4, Fixtures.emptyStore] at hr,
   by intro d hd; simp [Fixtures.storeC4, Fixtures.emptyStore] at hd,
   by intro rs hrs; simp [Fixtures.storeC4, Fixtures.emptyStore] at hrs,
   claim_C4_exact_decimal_two_places Fixtures.storeC4 7 0 5
     (by
       intro t ht
       have he : t = { Fixtures.baseTx with amount := 201/2 } := by
         simpa [Fixtures.storeC4, Fixtures.emptyStore] using ht
       subst he
       exact ⟨isCents_of 10050 (by norm_num [Fixtures.baseTx]),
         isCents_of 250 (by norm_num [Fixtures.baseTx]),
         isCents_of 100 (by norm_num [Fixtures.baseTx])⟩)
     (by intro r hr; simp [Fixtures.storeC4, Fixtures.emptyStore] at hr)
     (by intro d hd; simp [Fixtures.storeC4, Fixtures.emptyStore] at hd)
     (by intro rs hrs; simp [Fixtures.storeC4, Fixtures.emptyStore] at hrs)⟩

/-- Claim C5: `shouldSettleToday` holds for every date under the daily
cycles `D+0..D+3`; for `WEEKLY` exactly when the date's weekday equals
the configured settlement weekday (default 0 = Sunday); for `BIWEEKLY`
exactly when the weekday matches and the week-of-month parity matches
(the code's week-of-month is `Math.floor(dayOfMonth / 7)` and "matches"
means even parity); for `MONTHLY` exactly when the day-of-month equals
the configured settlement day (default 1). -/
theorem claim_C5_settlement_cycle_due (sm : SubMerchant)
    (dayOfWeek dayOfMonth : Nat) :
    (SettlementEngine.shouldSettleToday
        { sm with settlementCycle := .d0 } dayOfWeek dayOfMonth = true) ∧
    (SettlementEngine.shouldSettleToday
        { sm with settlementCycle := .d1 } dayOfWeek dayOfMonth = true) ∧
    (SettlementEngine.shouldSettleToday
        { sm with settlementCycle := .d2 } dayOfWeek dayOfMonth = true) ∧
    (SettlementEngine.shouldSettleToday
        { sm with settlementCycle := .d3 } dayOfWeek dayOfMonth = true) ∧
    (SettlementEngine.shouldSettleToday
        { sm with settlementCycle := .weekly } dayOfWeek dayOfMonth = true ↔
      dayOfWeek = sm.settlementDayOfWeek.getD 0) ∧
    (SettlementEngine.shouldSettleToday
        { sm with settlementCycle := .biweekly } dayOfWeek dayOfMonth = true ↔
      (dayOfWeek = sm.settlementDayOfWeek.getD 0 ∧ dayOfMonth / 7 % 2 = 0)) ∧
    (SettlementEngine.shouldSettleToday
        { sm with settlementCycle := .monthly } dayOfWeek dayOfMonth = true ↔
      dayOfMonth = SettlementEngine.effectiveSettlementDayOfMonth sm) := by
  refine ⟨rfl, rfl, rfl, rfl, ?_, ?_, ?_⟩ <;>
    simp [SettlementEngine.shouldSettleToday,
      SettlementEngine.effectiveSettlementDayOfMonth]

/-- Counterexample to claim C6: when `submitBatch` returns an
unsuccessful result (batch-level failure without a thrown error), the
batch is marked `failed` but the member payout is NOT marked failed, no
failure message is recorded on it, and its retry count is NOT
incremented — contradicting the claim that every batch-level failure
marks all members failed with the batch error and bumps retry counts. -/
theorem claim_C6_counterexample :
    (PayoutSvc3.processBankTransferBatch [Fixtures.basePayout] 5 "BATCH-1" 0
        (.ok false)).1.status = "failed" ∧
    (PayoutSvc3.processBankTransferBatch [Fixtures.basePayout] 5 "BATCH-1" 0
        (.ok false)).2.map Payout.status = [.pending] ∧
    (PayoutSvc3.processBankTransferBatch [Fixtures.basePayout] 5 "BATCH-1" 0
        (.ok false)).2.map Payout.retryCount = [0] ∧
    (PayoutSvc3.processBankTransferBatch [Fixtures.basePayout] 5 "BATCH-1" 0
        (.ok false)).2.map Payout.failureMessage = [none] := by
  decide

/-- Claim C6 as amended: on batch-level success every member moves to
`sent`; when batch submission throws, every member is marked `failed`
with the error recorded and its retry count incremented (and the batch
is marked `failed`); but when the rail returns an unsuccessful result
without throwing, only the batch is marked `failed` and the member
payouts are left unchanged apart from the batch link. -/
theorem claim_C6_amended_batch_outcomes (payouts : List Payout)
    (batchId : Nat) (batchRef : String) (now : Nat) (msg : String) :
    ((PayoutSvc3.processBankTransferBatch payouts batchId batchRef now
        (.ok true)).2 =
      payouts.map (fun p =>
        { p with batchId := some batchId, status := .sent })) ∧
    ((PayoutSvc3.processBankTransferBatch payouts batchId batchRef now
        (.ok true)).1.status = "processing") ∧
    ((PayoutSvc3.processBankTransferBatch payouts batchId batchRef now
        (.exnError msg)).2 =
      payouts.map (fun p =>
        { p with batchId := some batchId, status := .failed,
                 failureMessage := some msg,
                 retryCount := p.retryCount + 1 })) ∧
    ((PayoutSvc3.processBankTransferBatch payouts batchId batchRef now
        (.exnError msg)).1.status = "failed") ∧
    ((PayoutSvc3.processBankTransferBatch payouts batchId batchRef now
        (.ok false)).2 =
      payouts.map (fun p => { p with batchId := some batchId })) ∧
    ((PayoutSvc3.processBankTransferBatch payouts batchId batchRef now
        (.ok false)).1.status = "failed") := by
  refine ⟨?_, rfl, ?_, rfl, rfl, rfl⟩ <;>
    simp [PayoutSvc3.processBankTransferBatch, List.map_map, Function.comp]

/-- Claim C7: `calculateSettlementForMerchant` returns `null`, persists
no settlement row and claims no ledger rows (the store is returned
untouched and no notification is emitted), whenever the period has zero
activity (no transactions, refunds, disputes, or releasable reserves),
or whenever the computed net amount is below the sub-merchant's minimum
payout threshold; neither case raises an error. -/
theorem claim_C7_skip_returns_null (sm : SubMerchant) (settlementDate : Nat)
    (store : Store) (fresh : SettlementEngine.FreshIds) (now : Nat)
    (h : ((SettlementEngine.calcForPeriod store sm settlementDate).transactionCount = 0 ∧
          (SettlementEngine.calcForPeriod store sm settlementDate).refundCount = 0 ∧
          (SettlementEngine.calcForPeriod store sm settlementDate).disputeCount = 0 ∧
          (SettlementEngine.calcForPeriod store sm settlementDate).releasableReserves = []) ∨
         (SettlementEngine.calcForPeriod store sm settlementDate).netAmount <
           SettlementEngine.effectiveMinimumPayout sm) :
    SettlementEngine.calculateSettlementForMerchant sm settlementDate store
      fresh now = ⟨none, store, []⟩ :=
  calcForMerchant_skip sm settlementDate store fresh now h

/-- Witness for C7: a period with zero activity on a concrete empty
store yields `null` and an unchanged store. -/
theorem claim_C7_witness :
    (((SettlementEngine.calcForPeriod Fixtures.emptyStore Fixtures.baseSM 5).transactionCount = 0 ∧
      (SettlementEngine.calcForPeriod Fixtures.emptyStore Fixtures.baseSM 5).refundCount = 0 ∧
      (SettlementEngine.calcForPeriod Fixtures.emptyStore Fixtures.baseSM 5).disputeCount = 0 ∧
      (SettlementEngine.calcForPeriod Fixtures.emptyStore Fixtures.baseSM 5).releasableReserves = []) ∨
     (SettlementEngine.calcForPeriod Fixtures.emptyStore Fixtures.baseSM 5).netAmount <
       SettlementEngine.effectiveMinimumPayout Fixtures.baseSM) ∧
    SettlementEngine.calculateSettlementForMerchant Fixtures.baseSM 5
      Fixtures.emptyStore Fixtures.baseFresh 6 =
      ⟨none, Fixtures.emptyStore, []⟩ :=
  ⟨Or.inl ⟨rfl, rfl, rfl, rfl⟩,
   claim_C7_skip_returns_null Fixtures.baseSM 5 Fixtures.emptyStore
     Fixtures.baseFresh 6 (Or.inl ⟨rfl, rfl, rfl, rfl⟩)⟩

/-- Claim C8: `rejectSettlement` nulls the settlement id on every linked
transaction (together with `settledAt`) and refund, sets the settlement
to `on_hold` with the reason recorded, and leaves everything else
unchanged — the `Store` record update below touches only `transactions`,
`refunds` and `settlements`, so `disputes`, `reserves`, sub-merchants,
settlement items and payouts are untouched, and the settlement ids of
linked disputes and the statuses of reserves are not reverted. -/
theorem claim_C8_reject_settlement (store : Store) (settlementId : Nat)
    (rejectedBy reason : String) (s : Settlement)
    (h : store.settlements.find? (fun x => x.id == settlementId) = some s) :
    SettlementEngine.rejectSettlement store settlementId rejectedBy reason =
      .ok ({ store with
              transactions := store.transactions.map (fun t =>
                if t.settlementId == some settlementId then
                  { t with settlementId := none, settledAt := none }
                else t)
              refunds := store.refunds.map (fun r =>
                if r.settlementId == some settlementId then
                  { r with settlementId := none }
                else r)
              settlements := store.settlements.map (fun x =>
                if x.id == settlementId then
                  { s with status := .onHold, adjustmentNotes := some reason }
                else x) },
           { s with status := .onHold, adjustmentNotes := some reason }) := by
  unfold SettlementEngine.rejectSettlement
  rw [h]

/-- Witness for C8: rejection of a concrete settlement with linked
transaction, refund, dispute and reserve rows. -/
theorem claim_C8_witness :
    Fixtures.storeC8.settlements.find? (fun x => x.id == 1) =
      some Fixtures.baseSettlement ∧
    SettlementEngine.rejectSettlement Fixtures.storeC8 1 "ops" "fraud review" =
      .ok ({ Fixtures.storeC8 with
              transactions := Fixtures.storeC8.transactions.map (fun t =>
                if t.settlementId == some 1 then
                  { t with settlementId := none, settledAt := none }
                else t)
              refunds := Fixtures.storeC8.refunds.map (fun r =>
                if r.settlementId == some 1 then
                  { r with settlementId := none }
                else r)
              settlements := Fixtures.storeC8.settlements.map (fun x =>
                if x.id == 1 then
                  { Fixtures.baseSettlement with status := .onHold, adjustmentNotes := some "fraud review" }
                else x) },
           { Fixtures.baseSettlement with status := .onHold, adjustmentNotes := some "fraud review" }) :=
  ⟨rfl, claim_C8_reject_settlement Fixtures.storeC8 1 "ops" "fraud review"
    Fixtures.baseSettlement rfl⟩

/-- Claim C9: when the sub-merchant's `minimumPayoutAmount` is unset or
configured as 0, the effective threshold defaults to 100, so a computed
net amount strictly below 100 makes `calculateSettlementForMerchant`
return `null` with no settlement created — configuring a minimum of 0
does not disable the threshold. -/
theorem claim_C9_zero_minimum_defaults (sm : SubMerchant)
    (settlementDate : Nat) (store : Store)
    (fresh : SettlementEngine.FreshIds) (now : Nat)
    (hmin : sm.minimumPayoutAmount = none ∨ sm.minimumPayoutAmount = some 0)
    (hnet : (SettlementEngine.calcForPeriod store sm settlementDate).netAmount < 100) :
    SettlementEngine.calculateSettlementForMerchant sm settlementDate store
      fresh now = ⟨none, store, []⟩ := by
  have he : SettlementEngine.effectiveMinimumPayout sm = 100 := by
    rcases hmin with h | h <;>
      simp [SettlementEngine.effectiveMinimumPayout, h]
  exact calcForMerchant_skip sm settlementDate store fresh now
    (Or.inr (by rw [he]; exact hnet))

/-- Witness for C9: a sub-merchant configured with minimum 0 and a 50
EGP net period is skipped. -/
theorem claim_C9_witness :
    (Fixtures.smC9.minimumPayoutAmount = none ∨
      Fixtures.smC9.minimumPayoutAmount = some 0) ∧
    (SettlementEngine.calcForPeriod Fixtures.storeC9 Fixtures.smC9 3).netAmount < 100 ∧
    SettlementEngine.calculateSettlementForMerchant Fixtures.smC9 3
      Fixtures.storeC9 Fixtures.baseFresh 4 = ⟨none, Fixtures.storeC9, []⟩ :=
  ⟨Or.inr rfl,
   by
    norm_num [SettlementEngine.calcForPeriod,
      SettlementEngine.calculateAmounts, SettlementEngine.aggregateAmounts,
      SettlementEngine.getSettlementPeriod,
      SettlementEngine.getSettlementCycleDays,
      SettlementEngine.reservePercentageOf, toDecimalPlaces2, sumBy,
      Fixtures.storeC9, Fixtures.smC9, Fixtures.baseSM, Fixtures.baseTx,
      Fixtures.emptyStore, List.filter, List.find?],
   claim_C9_zero_minimum_defaults Fixtures.smC9 3 Fixtures.storeC9
     Fixtures.baseFresh 4 (Or.inr rfl)
     (by
      norm_num [SettlementEngine.calcForPeriod,
        SettlementEngine.calculateAmounts, SettlementEngine.aggregateAmounts,
        SettlementEngine.getSettlementPeriod,
        SettlementEngine.getSettlementCycleDays,
        SettlementEngine.reservePercentageOf, toDecimalPlaces2, sumBy,
        Fixtures.storeC9, Fixtures.smC9, Fixtures.baseSM, Fixtures.baseTx,
        Fixtures.emptyStore, List.filter, List.find?])⟩

/-- Claim C10: for a processor reference matching no payout, both
`confirmPayoutCompletion` and `handlePayoutWebhook` return normally
without raising, modify no payout state, and send no notification. -/
theorem claim_C10_unknown_reference_noop (payouts : List Payout)
    (ref : String) (status : PayoutSvc.ConfirmStatus)
    (details : Option String) (webhookStatus : String)
    (dataReason : Option String) (now : Nat)
    (h : ∀ p ∈ payouts, p.processorReference ≠ some ref) :
    PayoutSvc.confirmPayoutCompletion payouts ref status details now =
      (payouts, []) ∧
    PayoutSvc3.handlePayoutWebhook payouts ref webhookStatus dataReason now =
      (payouts, []) := by
  have hf : payouts.find? (fun p => p.processorReference == some ref) = none := by
    rw [List.find?_eq_none]
    intro p hp
    simpa using h p hp
  constructor
  · simp [PayoutSvc.confirmPayoutCompletion, hf]
  · simp [PayoutSvc3.handlePayoutWebhook, hf]

/-- Witness for C10: probing a store holding only a payout with a
different processor reference is a no-op for both entry points. -/
theorem claim_C10_witness :
    (∀ p ∈ [Fixtures.payoutC10], p.processorReference ≠ some "REF-B") ∧
    PayoutSvc.confirmPayoutCompletion [Fixtures.payoutC10] "REF-B"
      .completed none 9 = ([Fixtures.payoutC10], []) ∧
    PayoutSvc3.handlePayoutWebhook [Fixtures.payoutC10] "REF-B"
      "completed" none 9 = ([Fixtures.payoutC10], []) :=
  ⟨by decide,
   (claim_C10_unknown_reference_noop [Fixtures.payoutC10] "REF-B"
     .completed none "completed" none 9 (by decide)).1,
   (claim_C10_unknown_reference_noop [Fixtures.payoutC10] "REF-B"
     .completed none "completed" none 9 (by decide)).2⟩

end HealthPay
